import Mathlib

/-!
# Verification of `check_asa_sessions.py`

A shallow embedding of the Icinga/Nagios plugin `check_asa_sessions.py`
(a Cisco ASA concurrent-session monitor) and proofs about its threshold
resolution, classification bands, error handling and exit codes.

The Python program works over one mutable dictionary `snmp_check_values`
mixing strings, integers and booleans; we model the dictionary as an
insertion-ordered association list of Python-like values, dictionary
access/update explicitly (a missing key raises `KeyError`), Python
truthiness, `int()` conversion, and the `str.split` variants the parser
uses.  The two external `snmpwalk` invocations are inputs: each is either
`some rawText` (the decoded output of a successful call) or `none` (the
call raised, caught by the bare `except`).  `sys.exit` via the reporting
helpers `ok`/`warning`/`critical`/`unknown`/`error` is modelled as an
`ExitResult` (status line and process exit code); an exception escaping
the script is `RunResult.raised` (CPython then prints a traceback and
exits with code 1, which is distinct from every `ExitResult`).
-/

namespace ASA

/-- A Python value as stored in the `snmp_check_values` dictionary. -/
inductive PyVal where
  | int (n : Int)
  | str (s : String)
  | bool (b : Bool)
  deriving DecidableEq, Repr

/-- Python truthiness of a dictionary value (`if snmp_check_values[asa_model]:`). -/
def PyVal.truthy : PyVal → Bool
  | .int n => n != 0
  | .str s => s != ""
  | .bool b => b

/-- Numeric view used by Python comparison operators: `bool` is an `int`
subtype (`False = 0`, `True = 1`); a `str` has no numeric view and
comparing it with an `int` raises `TypeError`. -/
def PyVal.asInt : PyVal → Option Int
  | .int n => some n
  | .bool b => some (if b then 1 else 0)
  | .str _ => none

/-- Python `x == False` (used by `if snmp_check_values[high_threshold_set] == False:`):
`False == False` and `0 == False` are true; a string is never `== False`. -/
def PyVal.eqFalse : PyVal → Bool
  | .int n => n == 0
  | .str _ => false
  | .bool b => !b

/-- The Python exceptions the script can raise past its handlers. -/
inductive PyExc where
  | keyError (k : String)
  | valueError
  | typeError
  deriving DecidableEq, Repr

/-- The `snmp_check_values` dictionary: insertion-ordered key/value pairs. -/
abbrev PyDict := List (String × PyVal)

/-- Dictionary read, `d[k]`, as a partial operation (`none` models `KeyError`). -/
def dictGet (d : PyDict) (k : String) : Option PyVal :=
  match d with
  | [] => none
  | (k1, v) :: rest => if k1 = k then some v else dictGet rest k

/-- Dictionary read in the exception monad: absent key raises `KeyError`. -/
def dictGetE (d : PyDict) (k : String) : Except PyExc PyVal :=
  match dictGet d k with
  | some v => .ok v
  | none => .error (.keyError k)

/-- Dictionary write, `d[k] = v`: replace in place if the key exists,
append otherwise (Python dicts preserve insertion order). -/
def dictSet (d : PyDict) (k : String) (v : PyVal) : PyDict :=
  match d with
  | [] => [(k, v)]
  | (k1, v1) :: rest => if k1 = k then (k, v) :: rest else (k1, v1) :: dictSet rest k v

/-- Python `a <= b` on dictionary values. -/
def pyLe (a b : PyVal) : Except PyExc Bool :=
  match a.asInt, b.asInt with
  | some x, some y => .ok (decide (x ≤ y))
  | _, _ => .error .typeError

/-- Python `a < b` on dictionary values. -/
def pyLt (a b : PyVal) : Except PyExc Bool :=
  match a.asInt, b.asInt with
  | some x, some y => .ok (decide (x < y))
  | _, _ => .error .typeError

/-- Python `a >= b` on dictionary values. -/
def pyGe (a b : PyVal) : Except PyExc Bool :=
  match a.asInt, b.asInt with
  | some x, some y => .ok (decide (y ≤ x))
  | _, _ => .error .typeError

/-- String concatenation `"..." + v` demands a `str`; anything else raises `TypeError`. -/
def pyStrE (v : PyVal) : Except PyExc String :=
  match v with
  | .str s => .ok s
  | _ => .error .typeError

/-- A terminated run: the single status line printed and the `sys.exit` code. -/
structure ExitResult where
  line : String
  code : Int
  deriving DecidableEq, Repr

/-- Model of `def ok(msg): print(..., msg); sys.exit(0)`. -/
def ok (msg : String) : ExitResult := ⟨"OK: " ++ msg, 0⟩

/-- Model of `def warning(msg): print(..., msg); sys.exit(1)`. -/
def warning (msg : String) : ExitResult := ⟨"WARNING: " ++ msg, 1⟩

/-- Model of `def critical(msg): print(..., msg); sys.exit(2)`. -/
def critical (msg : String) : ExitResult := ⟨"CRITICAL: " ++ msg, 2⟩

/-- Model of `def unknown(msg): print(..., msg); sys.exit(3)`. -/
def unknown (msg : String) : ExitResult := ⟨"UNKNOWN: " ++ msg, 3⟩

/-- Model of `def error(msg): print(..., msg); sys.exit(3)`. -/
def error (msg : String) : ExitResult := ⟨"ERROR: " ++ msg, 3⟩

/-- How a run of `check_asa_sessions` ends. -/
inductive RunResult where
  | exited (r : ExitResult)
  | raised (e : PyExc)
  | returned
  deriving DecidableEq, Repr

/-- Python whitespace, as recognised by `str.split()` with no argument. -/
def isPyWs (c : Char) : Bool :=
  c = ' ' || c = '\t' || c = '\n' || c = '\r' || c = '\x0b' || c = '\x0c'

/-- Tokeniser core for Python `str.split()`: split on whitespace runs,
dropping empty fields.  `acc` holds the current word, reversed. -/
def splitWsAux : List Char → List Char → List String
  | [], [] => []
  | [], acc => [String.mk acc.reverse]
  | c :: cs, acc =>
    if isPyWs c then
      match acc with
      | [] => splitWsAux cs []
      | _ => String.mk acc.reverse :: splitWsAux cs []
    else splitWsAux cs (c :: acc)

/-- Python `s.split()` (no separator argument). -/
def pySplitWs (s : String) : List String := splitWsAux s.data []

/-- Splitter core for Python `s.split(sep)` with a one-character separator:
split at every occurrence, keeping empty fields. -/
def splitCharAux (sep : Char) : List Char → List Char → List String
  | [], acc => [String.mk acc.reverse]
  | c :: cs, acc =>
    if c = sep then String.mk acc.reverse :: splitCharAux sep cs []
    else splitCharAux sep cs (c :: acc)

/-- Python `s.split(sep)` for a one-character separator (the script uses `split('"')`). -/
def pySplitChar (s : String) (sep : Char) : List String := splitCharAux sep s.data []

/-- Decimal value of a digit list. -/
def digitsToNat (l : List Char) : Nat :=
  l.foldl (fun a c => a * 10 + (c.toNat - 48)) 0

/-- Python `int(s)` on a string: optional surrounding whitespace, optional
sign, at least one decimal digit; anything else raises `ValueError`.
(Python additionally accepts `_` digit separators, which no SNMP output
contains; the model leaves them out.) -/
def pyInt (s : String) : Option Int :=
  let t := ((s.data.dropWhile isPyWs).reverse.dropWhile isPyWs).reverse
  match t with
  | [] => none
  | c :: cs =>
    if c = '-' then
      if cs ≠ [] ∧ cs.all Char.isDigit then some (-(digitsToNat cs : Int)) else none
    else if c = '+' then
      if cs ≠ [] ∧ cs.all Char.isDigit then some ((digitsToNat cs : Int)) else none
    else if (c :: cs).all Char.isDigit then some ((digitsToNat (c :: cs) : Int)) else none

/-- Python `int(s)` in the exception monad. -/
def pyIntE (s : String) : Except PyExc Int :=
  match pyInt s with
  | some n => .ok n
  | none => .error .valueError

/-- The parsing step (the second `try` block):
`current_asa_sessions = command_output_sessions.decode().split()[3]` and
`asa_model = command_output_model.decode().split()[3].split('"')[1]`.
`none` models the bare `except` firing (IndexError on a short field list
or a missing quoted substring). -/
def parseOutputs (sessionsRaw modelRaw : String) : Option (String × String) := do
  let cur ← (pySplitWs sessionsRaw).get? 3
  let m3 ← (pySplitWs modelRaw).get? 3
  let asa_model ← (pySplitChar m3 '\x22').get? 1
  return (cur, asa_model)

/-- Lines 88–94: model-based resolution of the `critical_high` threshold.
```
if snmp_check_values['high_threshold_set'] == False:
    if snmp_check_values[asa_model]:
        snmp_check_values['critical_high'] = snmp_check_values[asa_model]
    else:
        snmp_check_values['critical_high'] = snmp_check_values['UNKNOWN_MODEL']
```
Note `snmp_check_values[asa_model]` is a plain dictionary access: a model
identifier that is not a key raises `KeyError` before any assignment. -/
def resolveCriticalHigh (d : PyDict) (asa_model : String) : Except PyExc PyDict := do
  let hts ← dictGetE d "high_threshold_set"
  if hts.eqFalse then
    let mv ← dictGetE d asa_model
    if mv.truthy then
      return dictSet d "critical_high" mv
    else
      let um ← dictGetE d "UNKNOWN_MODEL"
      return dictSet d "critical_high" um
  else
    return d

/-- Lines 115–125: the five classification bands, evaluated in order; each
handler calls `sys.exit`, so the first matching band terminates the run.
Chained comparisons (`a < b <= c`) evaluate left to right and
short-circuit, and `int(current_asa_sessions)` is re-evaluated inside
each band, exactly as in the source.  `.ok none` means every guard was
false and the function fell through (returning `None` to `main`). -/
def classify (d : PyDict) (cur : String) (msg : String) : Except PyExc (Option ExitResult) := do
  -- if int(current_asa_sessions) <= snmp_check_values['critical_low']: critical(msg)
  let n ← pyIntE cur
  let clv ← dictGetE d "critical_low"
  let b1 ← pyLe (.int n) clv
  if b1 then return some (critical msg)
  -- if snmp_check_values['critical_low'] < int(current_asa_sessions) <= snmp_check_values['warning_low']: warning(msg)
  let clv2 ← dictGetE d "critical_low"
  let n2 ← pyIntE cur
  let g2 ← pyLt clv2 (.int n2)
  let b2 ← if g2 then do
      let wlv ← dictGetE d "warning_low"
      pyLe (.int n2) wlv
    else pure false
  if b2 then return some (warning msg)
  -- if snmp_check_values['warning_low'] < int(current_asa_sessions) < snmp_check_values['warning_high']: ok(msg)
  let wlv2 ← dictGetE d "warning_low"
  let n3 ← pyIntE cur
  let g3 ← pyLt wlv2 (.int n3)
  let b3 ← if g3 then do
      let whv ← dictGetE d "warning_high"
      pyLt (.int n3) whv
    else pure false
  if b3 then return some (ok msg)
  -- if snmp_check_values['warning_high'] <= int(current_asa_sessions) < snmp_check_values['critical_high']: warning(msg)
  let whv2 ← dictGetE d "warning_high"
  let n4 ← pyIntE cur
  let g4 ← pyLe whv2 (.int n4)
  let b4 ← if g4 then do
      let chv ← dictGetE d "critical_high"
      pyLt (.int n4) chv
    else pure false
  if b4 then return some (warning msg)
  -- if int(current_asa_sessions) >= snmp_check_values['critical_high']: critical(msg)
  let n5 ← pyIntE cur
  let chv2 ← dictGetE d "critical_high"
  let b5 ← pyGe (.int n5) chv2
  if b5 then return some (critical msg)
  return none

/-- The diagnostic assembled in the `except` handler around the two
`snmpwalk` calls (lines 66–73); building it reads the host and community
out of the dictionary and concatenates them into string literals. -/
def pollErrorMsg (d : PyDict) : Except PyExc String := do
  let hv ← dictGetE d "snmp_host"
  let host ← pyStrE hv
  let cv ← dictGetE d "snmp_community"
  let comm ← pyStrE cv
  return "Something went wrong with subprocess command \x27snmpwalk\x27"
    ++ "\nIs the host " ++ host ++ " reachable?"
    ++ "\nIs it configured to accept SNMP polls from this host?"
    ++ "\nIs SNMP community string \x27" ++ comm ++ "\x27 valid?"

/-- The parse-failure diagnostic (lines 83–85). -/
def parseErrorMsg : String :=
  "Something went wrong parsing data. Probably wrong SNMP OID for this device."

/-- The outcome of the two external `snmpwalk` invocations feeding one run:
`some rawText` is the decoded stdout of a successful call, `none` a call
that raised (unreachable host, rejected community, missing binary, …). -/
structure PollOutcome where
  sessions_out : Option String
  model_out : Option String
  deriving DecidableEq, Repr

/-- Model of `check_asa_sessions(snmp_check_values)` (lines 42–125): acquisition,
parsing, threshold resolution, message formatting and classification.
Returns the dictionary as left by the run (the resolution step mutates
`critical_high` in place) together with how the run ended.  The `--debug`
branch only prints extra lines before the verdict and never changes the
dictionary, the verdict or the exit code, so it is not modelled. -/
def check_asa_sessions (d : PyDict) (po : PollOutcome) : PyDict × RunResult :=
  match po.sessions_out, po.model_out with
  | some sraw, some mraw =>
    match parseOutputs sraw mraw with
    | none => (d, .exited (error parseErrorMsg))
    | some (cur, asa_model) =>
      match resolveCriticalHigh d asa_model with
      | .error e => (d, .raised e)
      | .ok d2 =>
        let msg := "Current sessions: " ++ cur ++ " MODEL: " ++ asa_model
          ++ " | current_sessions=" ++ cur
        match classify d2 cur msg with
        | .error e => (d2, .raised e)
        | .ok (some r) => (d2, .exited r)
        | .ok none => (d2, .returned)
  | _, _ =>
    match pollErrorMsg d with
    | .ok m => (d, .exited (error m))
    | .error e => (d, .raised e)

/-- The parsed command line of `main` (community and host are required;
the threshold options carry `none` when absent). -/
structure Args where
  SNMP_COMMUNITY : String
  HOST : String
  warning : Option Int
  critical : Option Int
  wl : Option Int
  cl : Option Int
  debug : Bool
  deriving DecidableEq, Repr

/-- The `snmp_check_values` dictionary literal of `main` (lines 148–166). -/
def defaultValues (community host : String) : PyDict :=
  [("snmp_community", .str community),
   ("snmp_host", .str host),
   ("snmp_oid_asa_model", .str ".1.3.6.1.2.1.47.1.1.1.1.13.1"),
   ("snmp_oid_asa_sessions", .str ".1.3.6.1.4.1.9.9.147.1.2.2.2.1.5.40.6"),
   ("warning_low", .int (-1)),
   ("warning_high", .int 50000),
   ("critical_low", .int (-2)),
   ("critical_high", .int 100000),
   ("high_threshold_set", .bool false),
   ("debug", .bool false),
   ("ASA5505", .int 10000),
   ("ASA5510", .int 50000),
   ("ASA5512", .int 280000),
   ("ASA5520", .int 280000),
   ("ASA5540", .int 400000),
   ("ASA5550", .int 650000),
   ("UNKNOWN_MODEL", .int 800000)]

/-- One `if args.X: snmp_check_values[k] = args.X` override from `main`:
Python truthiness makes both an absent option (`None`) and an explicit
`0` skip the write. -/
def applyOptOverride (d : PyDict) (k : String) (v : Option Int) : PyDict :=
  match v with
  | some n => if n != 0 then dictSet d k (.int n) else d
  | none => d

/-- The configuration `main` hands to `check_asa_sessions` (lines 148–182):
the defaults dictionary, then the `-wl`, `-cl`, `-w`/`--warning` and
`-c`/`--critical` overrides in source order (`--critical` additionally
sets `high_threshold_set = True`), then the `--debug` flag. -/
def buildConfig (a : Args) : PyDict :=
  let d0 := defaultValues a.SNMP_COMMUNITY a.HOST
  let d1 := applyOptOverride d0 "warning_low" a.wl
  let d2 := applyOptOverride d1 "critical_low" a.cl
  let d3 := applyOptOverride d2 "warning_high" a.warning
  let d4 :=
    match a.critical with
    | some n =>
      if n != 0 then
        dictSet (dictSet d3 "critical_high" (.int n)) "high_threshold_set" (.bool true)
      else d3
    | none => d3
  if a.debug then dictSet d4 "debug" (.bool true) else d4

/-- Model of `main` end to end: build the configuration from the command line and
run the check against the given acquisition outcome. -/
def main (a : Args) (po : PollOutcome) : PyDict × RunResult :=
  check_asa_sessions (buildConfig a) po

/-- Specification-side rendering of §4.2 `classify`: the five bands as
(condition, verdict) pairs in the documented order, over plain integers. -/
def specBands (cl wl wh ch n : Int) (msg : String) : List (Bool × ExitResult) :=
  [(decide (n ≤ cl), critical msg),
   (decide (cl < n) && decide (n ≤ wl), warning msg),
   (decide (wl < n) && decide (n < wh), ok msg),
   (decide (wh ≤ n) && decide (n < ch), warning msg),
   (decide (ch ≤ n), critical msg)]

/-- First-match semantics over a band list: the verdict of the first band
whose condition holds, `none` if no band matches. -/
def firstMatch : List (Bool × ExitResult) → Option ExitResult
  | [] => none
  | (c, v) :: rest => if c then some v else firstMatch rest

/-- Substring containment: `t` occurs inside `s`. -/
def containsStr (s t : String) : Prop := ∃ a b : String, s = a ++ t ++ b

/-! ## Dictionary lemmas -/

/-- Reading a key just written returns the written value. -/
theorem dictGet_dictSet_self (d : PyDict) (k : String) (v : PyVal) :
    dictGet (dictSet d k v) k = some v := by
  induction d with
  | nil => simp [dictGet, dictSet]
  | cons hd tl ih =>
    obtain ⟨k1, v1⟩ := hd
    by_cases h : k1 = k <;> simp [dictGet, dictSet, h, ih]

/-- Writing one key leaves every other key unchanged. -/
theorem dictGet_dictSet_ne (d : PyDict) (k1 k2 : String) (v : PyVal) (h : k1 ≠ k2) :
    dictGet (dictSet d k1 v) k2 = dictGet d k2 := by
  induction d with
  | nil => simp [dictGet, dictSet, h]
  | cons hd tl ih =>
    obtain ⟨k3, v3⟩ := hd
    by_cases h3 : k3 = k1
    · subst h3
      simp [dictGet, dictSet, h, Ne.symm h]
    · by_cases h4 : k3 = k2 <;> simp [dictGet, dictSet, h3, h4, ih, Ne.symm h]

/-! ## Threshold-resolution lemmas -/

/-- When the resolution step succeeds it touches only `critical_high`. -/
theorem resolveCriticalHigh_frame (d d2 : PyDict) (m : String)
    (h : resolveCriticalHigh d m = .ok d2) (k : String) (hk : k ≠ "critical_high") :
    dictGet d2 k = dictGet d k := by
  unfold resolveCriticalHigh at h
  simp only [bind, Except.bind, pure, Except.pure] at h
  repeat' split at h
  all_goals cases h
  all_goals first
    | rfl
    | exact dictGet_dictSet_ne _ _ _ _ (Ne.symm hk)

/-- When `high_threshold_set` is `True`, the resolution step is the
identity: no model lookup happens and the dictionary is untouched. -/
theorem resolveCriticalHigh_of_explicit (d : PyDict) (m : String)
    (h : dictGet d "high_threshold_set" = some (.bool true)) :
    resolveCriticalHigh d m = .ok d := by
  unfold resolveCriticalHigh
  simp [dictGetE, h, PyVal.eqFalse, bind, Except.bind, pure, Except.pure]

/-! ## Classification lemmas -/

/-- With integer thresholds in the dictionary and a numeric session-count
string, `classify` computes the first-match semantics of the five
specification bands. -/
theorem classify_firstMatch (d : PyDict) (cur msg : String) (n cl wl wh ch : Int)
    (hn : pyInt cur = some n)
    (hcl : dictGet d "critical_low" = some (.int cl))
    (hwl : dictGet d "warning_low" = some (.int wl))
    (hwh : dictGet d "warning_high" = some (.int wh))
    (hch : dictGet d "critical_high" = some (.int ch)) :
    classify d cur msg = .ok (firstMatch (specBands cl wl wh ch n msg)) := by
  unfold classify
  simp only [pyIntE, hn, dictGetE, hcl, hwl, hwh, hch, pyLe, pyLt, pyGe, PyVal.asInt,
    bind, Except.bind, pure, Except.pure, specBands, firstMatch]
  by_cases h1 : n ≤ cl
  · simp [h1]
  · have h1b : cl < n := by omega
    by_cases h2 : n ≤ wl
    · simp [h1, h1b, h2]
    · have h2b : wl < n := by omega
      by_cases h3 : n < wh
      · simp [h1, h1b, h2, h2b, h3]
      · have h3b : wh ≤ n := by omega
        by_cases h4 : n < ch
        · simp [h1, h1b, h2, h2b, h3, h3b, h4]
        · have h4b : ch ≤ n := by omega
          simp [h1, h1b, h2, h2b, h3, h3b, h4, h4b]

set_option maxHeartbeats 1000000 in
/-- Whatever the dictionary contents, a verdict produced by `classify` can
only come from one of the three band handlers `ok`, `warning`, `critical`. -/
theorem classify_cases (d : PyDict) (cur msg : String) (r : ExitResult)
    (h : classify d cur msg = .ok (some r)) :
    r = ok msg ∨ r = warning msg ∨ r = critical msg := by
  unfold classify at h
  simp only [bind, Except.bind, pure, Except.pure] at h
  repeat' split at h
  all_goals cases h
  all_goals first
    | (left; rfl)
    | (right; left; rfl)
    | (right; right; rfl)

/-! ## Run-level lemmas -/

/-- Every terminated run exits through one of the reporting helpers
`ok`, `warning`, `critical` or `error`. -/
theorem check_exit_forms (d : PyDict) (po : PollOutcome) (r : ExitResult)
    (h : (check_asa_sessions d po).2 = .exited r) :
    (∃ m, r = ok m) ∨ (∃ m, r = warning m) ∨ (∃ m, r = critical m) ∨ (∃ m, r = error m) := by
  unfold check_asa_sessions at h
  repeat' split at h
  all_goals simp only at h
  all_goals try (cases h)
  all_goals try (exact Or.inr (Or.inr (Or.inr ⟨_, rfl⟩)))
  split at h
  · simp only at h
    cases h
  · simp only at h
    cases h
    rename_i heq
    rcases classify_cases _ _ _ _ heq with h1 | h1 | h1
    · exact Or.inl ⟨_, h1⟩
    · exact Or.inr (Or.inl ⟨_, h1⟩)
    · exact Or.inr (Or.inr (Or.inl ⟨_, h1⟩))
  · simp only at h
    cases h

/-- A whole run changes no dictionary entry other than `critical_high`. -/
theorem check_frame (d : PyDict) (po : PollOutcome) (k : String) (hk : k ≠ "critical_high") :
    dictGet (check_asa_sessions d po).1 k = dictGet d k := by
  unfold check_asa_sessions
  repeat' split
  all_goals try rfl
  all_goals (
    rename_i heq
    have hfr := resolveCriticalHigh_frame _ _ _ heq k hk
    dsimp only
    split <;> simpa using hfr)

/-- With an operator-supplied `critical_high` a whole run leaves the
dictionary exactly as it was. -/
theorem check_preserves_of_explicit (d : PyDict) (po : PollOutcome)
    (h : dictGet d "high_threshold_set" = some (.bool true)) :
    (check_asa_sessions d po).1 = d := by
  unfold check_asa_sessions
  repeat' split
  all_goals try rfl
  all_goals (
    rename_i heq
    rw [resolveCriticalHigh_of_explicit _ _ h] at heq
    cases heq
    dsimp only
    split <;> rfl)

/-! ## Claims -/

/-- C1: the claim says a model identifier absent from the model-defaults
table resolves to the fallback ceiling 800000 and evaluation proceeds
normally, never erroring.  The code instead evaluates
`snmp_check_values[asa_model]` as a plain dictionary access, so an
unrecognised model such as `ASA5585` raises an uncaught `KeyError` (the
`UNKNOWN_MODEL` fallback branch is unreachable for absent keys): with
default configuration and a successfully parsed reading of 107 sessions
on model `ASA5585`, the run dies on `KeyError` with the dictionary left
unchanged, instead of classifying against 800000. -/
theorem C1_unknown_model_raises_keyError :
    check_asa_sessions (defaultValues "public" "192.0.2.1")
        ⟨some "a b c 107", some "a b c \x22ASA5585\x22"⟩
      = (defaultValues "public" "192.0.2.1", .raised (.keyError "ASA5585")) := by
  decide

/-- C2 counterexample: the claim (every `-c` integer, including 0, is
stored and marks the threshold explicit) fails at `-c 0`: Python
truthiness of `args.critical` skips the override, so `critical_high`
stays at the default 100000 and `high_threshold_set` stays `False`. -/
theorem C2_zero_critical_ignored :
    dictGet (buildConfig ⟨"public", "192.0.2.1", none, some 0, none, none, false⟩) "critical_high"
        = some (.int 100000) ∧
    dictGet (buildConfig ⟨"public", "192.0.2.1", none, some 0, none, none, false⟩) "high_threshold_set"
        = some (.bool false) := by
  decide

/-- C2 (amended): for every NONZERO integer supplied via `-c` (long form `--critical`),
the configuration records that value as `critical_high` and sets
`high_threshold_set` to `True`, so the operator value is used unchanged
in classification. -/
theorem C2_nonzero_critical_override (a : Args) (n : Int)
    (hc : a.critical = some n) (hn : n ≠ 0) :
    dictGet (buildConfig a) "critical_high" = some (.int n) ∧
    dictGet (buildConfig a) "high_threshold_set" = some (.bool true) := by
  have hb : (n != 0) = true := by simpa using hn
  dsimp only [buildConfig]
  rw [hc]
  dsimp only
  rw [if_pos hb]
  cases hd : a.debug
  case false =>
    rw [if_neg (by simp [hd])]
    constructor
    · rw [dictGet_dictSet_ne _ _ _ _ (by decide), dictGet_dictSet_self]
    · rw [dictGet_dictSet_self]
  case true =>
    rw [if_pos (by simp [hd])]
    constructor
    · rw [dictGet_dictSet_ne _ _ _ _ (by decide), dictGet_dictSet_ne _ _ _ _ (by decide),
        dictGet_dictSet_self]
    · rw [dictGet_dictSet_ne _ _ _ _ (by decide), dictGet_dictSet_self]

/-- C2 witness: `-c 1000` is stored as `critical_high = 1000` with
`high_threshold_set = True`. -/
theorem C2_nonzero_critical_override_witness :
    dictGet (buildConfig ⟨"public", "192.0.2.1", none, some 1000, none, none, false⟩) "critical_high"
        = some (.int 1000) ∧
    dictGet (buildConfig ⟨"public", "192.0.2.1", none, some 1000, none, none, false⟩) "high_threshold_set"
        = some (.bool true) :=
  C2_nonzero_critical_override _ 1000 rfl (by decide)

/-- C3: the claim says a present but non-numeric session-count token ends
the run with the ParseError diagnostic and exit code 3.  In the code,
`int(current_asa_sessions)` is evaluated inside the classification block,
outside the parsing `try`, so the token `abc` at the session-count field
position raises an uncaught `ValueError` (traceback, interpreter exit
code 1) and the ParseError path is never taken. -/
theorem C3_nonnumeric_session_uncaught :
    (check_asa_sessions (defaultValues "public" "192.0.2.1")
        ⟨some "a b c abc", some "a b c \x22ASA5505\x22"⟩).2 = .raised .valueError ∧
    (check_asa_sessions (defaultValues "public" "192.0.2.1")
        ⟨some "a b c abc", some "a b c \x22ASA5505\x22"⟩).2 ≠ .exited (error parseErrorMsg) := by
  decide

/-- C4: for every session count and every threshold configuration,
including mis-ordered overlapping bands, `classify` returns exactly the
verdict of the first band, in the listed order 1–5, whose condition
holds (`firstMatch` over `specBands`); once a band matches, no later
band can change the verdict. -/
theorem C4_first_matching_band_governs (d : PyDict) (cur msg : String) (n cl wl wh ch : Int)
    (hn : pyInt cur = some n)
    (hcl : dictGet d "critical_low" = some (.int cl))
    (hwl : dictGet d "warning_low" = some (.int wl))
    (hwh : dictGet d "warning_high" = some (.int wh))
    (hch : dictGet d "critical_high" = some (.int ch)) :
    classify d cur msg = .ok (firstMatch (specBands cl wl wh ch n msg)) :=
  classify_firstMatch d cur msg n cl wl wh ch hn hcl hwl hwh hch

/-- C4 witness: the default thresholds at session count 60000. -/
theorem C4_first_matching_band_governs_witness :
    classify (defaultValues "public" "192.0.2.1") "60000" "m"
      = .ok (firstMatch (specBands (-2) (-1) 50000 100000 60000 "m")) :=
  C4_first_matching_band_governs (defaultValues "public" "192.0.2.1") "60000" "m"
    60000 (-2) (-1) 50000 100000 (by decide) (by decide) (by decide) (by decide) (by decide)

/-- C5: whenever `high_threshold_set` is `True`, threshold resolution
returns the configuration unchanged — the operator-supplied
`critical_high` is used as-is, whatever the model identifier, even one
present in the defaults table. -/
theorem C5_explicit_override_wins (d : PyDict) (asa_model : String)
    (h : dictGet d "high_threshold_set" = some (.bool true)) :
    resolveCriticalHigh d asa_model = .ok d ∧
    ∀ d2, resolveCriticalHigh d asa_model = .ok d2 →
      dictGet d2 "critical_high" = dictGet d "critical_high" := by
  have hr := resolveCriticalHigh_of_explicit d asa_model h
  refine ⟨hr, fun d2 h2 => ?_⟩
  rw [hr] at h2
  cases h2
  rfl

/-- C5 witness: `-c 1000` against table model `ASA5505`. -/
theorem C5_explicit_override_wins_witness :
    resolveCriticalHigh (buildConfig ⟨"public", "192.0.2.1", none, some 1000, none, none, false⟩)
        "ASA5505"
      = .ok (buildConfig ⟨"public", "192.0.2.1", none, some 1000, none, none, false⟩) :=
  (C5_explicit_override_wins _ "ASA5505" (by decide)).1

/-- C6: with well-ordered thresholds `critical_low < warning_low <
warning_high < critical_high`, classification at the exact boundary
values gives CRITICAL at `critical_low`, WARNING at `warning_low`,
WARNING at `warning_high` (inclusive), CRITICAL at `critical_high`
(inclusive), and OK strictly between `warning_low` and `warning_high`. -/
theorem C6_boundary_classification (d : PyDict) (cl wl wh ch : Int) (msg : String)
    (hcl : dictGet d "critical_low" = some (.int cl))
    (hwl : dictGet d "warning_low" = some (.int wl))
    (hwh : dictGet d "warning_high" = some (.int wh))
    (hch : dictGet d "critical_high" = some (.int ch))
    (h1 : cl < wl) (h2 : wl < wh) (h3 : wh < ch) :
    (∀ s, pyInt s = some cl → classify d s msg = .ok (some (critical msg))) ∧
    (∀ s, pyInt s = some wl → classify d s msg = .ok (some (warning msg))) ∧
    (∀ s, pyInt s = some wh → classify d s msg = .ok (some (warning msg))) ∧
    (∀ s, pyInt s = some ch → classify d s msg = .ok (some (critical msg))) ∧
    (∀ s n, pyInt s = some n → wl < n → n < wh → classify d s msg = .ok (some (ok msg))) := by
  refine ⟨fun s hs => ?_, fun s hs => ?_, fun s hs => ?_, fun s hs => ?_, fun s n hs ha hb => ?_⟩
  · rw [classify_firstMatch d s msg cl cl wl wh ch hs hcl hwl hwh hch]
    simp [specBands, firstMatch]
  · rw [classify_firstMatch d s msg wl cl wl wh ch hs hcl hwl hwh hch]
    simp [specBands, firstMatch, show ¬(wl ≤ cl) by omega, h1]
  · rw [classify_firstMatch d s msg wh cl wl wh ch hs hcl hwl hwh hch]
    simp [specBands, firstMatch, show ¬(wh ≤ cl) by omega, show ¬(wh ≤ wl) by omega,
      show ¬(wh < wh) by omega, h3]
  · rw [classify_firstMatch d s msg ch cl wl wh ch hs hcl hwl hwh hch]
    simp [specBands, firstMatch, show ¬(ch ≤ cl) by omega, show ¬(ch ≤ wl) by omega,
      show ¬(ch < wh) by omega, show ¬(ch < ch) by omega]
  · rw [classify_firstMatch d s msg n cl wl wh ch hs hcl hwl hwh hch]
    simp [specBands, firstMatch, show ¬(n ≤ cl) by omega, show ¬(n ≤ wl) by omega, ha, hb]

/-- C6 witness: the default thresholds `-2 < -1 < 50000 < 100000` at each
boundary and at 0 (the spec scenario `sessionCount=0` yields OK). -/
theorem C6_boundary_classification_witness :
    classify (defaultValues "public" "192.0.2.1") "-2" "m" = .ok (some (critical "m")) ∧
    classify (defaultValues "public" "192.0.2.1") "-1" "m" = .ok (some (warning "m")) ∧
    classify (defaultValues "public" "192.0.2.1") "50000" "m" = .ok (some (warning "m")) ∧
    classify (defaultValues "public" "192.0.2.1") "100000" "m" = .ok (some (critical "m")) ∧
    classify (defaultValues "public" "192.0.2.1") "0" "m" = .ok (some (ok "m")) := by
  have h := C6_boundary_classification (defaultValues "public" "192.0.2.1")
    (-2) (-1) 50000 100000 "m" (by decide) (by decide) (by decide) (by decide)
    (by decide) (by decide) (by decide)
  exact ⟨h.1 "-2" (by decide), h.2.1 "-1" (by decide), h.2.2.1 "50000" (by decide),
    h.2.2.2.1 "100000" (by decide), h.2.2.2.2 "0" 0 (by decide) (by decide) (by decide)⟩

/-- C7: the exit code always matches the verdict severity — the reporting
helpers exit with 0 (OK), 1 (WARNING), 2 (CRITICAL), 3 (UNKNOWN) and 3
(ERROR); every terminated run exits through one of `ok`, `warning`,
`critical`, `error`; and both failure kinds — parse failure and poll
failure — terminate through `error`, hence with the same code 3. -/
theorem C7_exit_code_contract :
    (∀ msg, (ok msg).code = 0) ∧
    (∀ msg, (warning msg).code = 1) ∧
    (∀ msg, (critical msg).code = 2) ∧
    (∀ msg, (unknown msg).code = 3) ∧
    (∀ msg, (error msg).code = 3) ∧
    (∀ d po r, (check_asa_sessions d po).2 = .exited r →
      (∃ m, r = ok m) ∨ (∃ m, r = warning m) ∨ (∃ m, r = critical m) ∨ (∃ m, r = error m)) ∧
    (∀ d sraw mraw, parseOutputs sraw mraw = none →
      (check_asa_sessions d ⟨some sraw, some mraw⟩).2 = .exited (error parseErrorMsg)) ∧
    (∀ d po m, (po.sessions_out = none ∨ po.model_out = none) → pollErrorMsg d = .ok m →
      (check_asa_sessions d po).2 = .exited (error m)) := by
  refine ⟨fun _ => rfl, fun _ => rfl, fun _ => rfl, fun _ => rfl, fun _ => rfl,
    check_exit_forms, fun d sraw mraw hp => ?_, fun d po m hf hm => ?_⟩
  · simp [check_asa_sessions, hp]
  · rcases po with ⟨so, mo⟩
    cases so with
    | none => simp [check_asa_sessions, hm]
    | some s =>
      cases mo with
      | none => simp [check_asa_sessions, hm]
      | some m2 =>
        rcases hf with hf | hf <;> simp at hf

/-- C7 witness: an unparseable acquisition response exits through
`error` (code 3) with the ParseError diagnostic. -/
theorem C7_exit_code_contract_witness :
    (check_asa_sessions (defaultValues "public" "192.0.2.1") ⟨some "x", some "y"⟩).2
      = .exited (error parseErrorMsg) :=
  C7_exit_code_contract.2.2.2.2.2.2.1 (defaultValues "public" "192.0.2.1") "x" "y" (by decide)

/-- C8: whenever either polling call fails, the run terminates through
`error` with exit code 3, the configuration untouched, and a diagnostic
containing both the target host and the community string; no verdict is
produced. -/
theorem C8_poll_failure_diagnostic (d : PyDict) (po : PollOutcome) (host comm : String)
    (hfail : po.sessions_out = none ∨ po.model_out = none)
    (hh : dictGet d "snmp_host" = some (.str host))
    (hc : dictGet d "snmp_community" = some (.str comm)) :
    ∃ m : String, check_asa_sessions d po = (d, .exited (error m)) ∧
      (error m).code = 3 ∧ containsStr m host ∧ containsStr m comm := by
  have hmsg : pollErrorMsg d = .ok
      ("Something went wrong with subprocess command \x27snmpwalk\x27"
        ++ "\nIs the host " ++ host ++ " reachable?"
        ++ "\nIs it configured to accept SNMP polls from this host?"
        ++ "\nIs SNMP community string \x27" ++ comm ++ "\x27 valid?") := by
    unfold pollErrorMsg
    simp [dictGetE, hh, hc, pyStrE, bind, Except.bind, pure, Except.pure]
  have hcontains : containsStr
      ("Something went wrong with subprocess command \x27snmpwalk\x27"
        ++ "\nIs the host " ++ host ++ " reachable?"
        ++ "\nIs it configured to accept SNMP polls from this host?"
        ++ "\nIs SNMP community string \x27" ++ comm ++ "\x27 valid?") host := by
    refine ⟨"Something went wrong with subprocess command \x27snmpwalk\x27" ++ "\nIs the host ",
      " reachable?" ++ "\nIs it configured to accept SNMP polls from this host?"
        ++ "\nIs SNMP community string \x27" ++ comm ++ "\x27 valid?", ?_⟩
    simp [String.append_assoc]
  have hcontains2 : containsStr
      ("Something went wrong with subprocess command \x27snmpwalk\x27"
        ++ "\nIs the host " ++ host ++ " reachable?"
        ++ "\nIs it configured to accept SNMP polls from this host?"
        ++ "\nIs SNMP community string \x27" ++ comm ++ "\x27 valid?") comm := by
    refine ⟨"Something went wrong with subprocess command \x27snmpwalk\x27"
        ++ "\nIs the host " ++ host ++ " reachable?"
        ++ "\nIs it configured to accept SNMP polls from this host?"
        ++ "\nIs SNMP community string \x27", "\x27 valid?", ?_⟩
    simp [String.append_assoc]
  refine ⟨_, ?_, rfl, hcontains, hcontains2⟩
  rcases po with ⟨so, mo⟩
  cases so with
  | none => simp [check_asa_sessions, hmsg]
  | some s =>
    cases mo with
    | none => simp [check_asa_sessions, hmsg]
    | some m2 => rcases hfail with hf | hf <;> simp at hf

/-- C8 witness: both polls failing against host 192.0.2.1 with community
`public`. -/
theorem C8_poll_failure_diagnostic_witness :
    ∃ m : String, check_asa_sessions (defaultValues "public" "192.0.2.1") ⟨none, none⟩
        = (defaultValues "public" "192.0.2.1", .exited (error m)) ∧
      (error m).code = 3 ∧ containsStr m "192.0.2.1" ∧ containsStr m "public" :=
  C8_poll_failure_diagnostic (defaultValues "public" "192.0.2.1") ⟨none, none⟩
    "192.0.2.1" "public" (Or.inl rfl) (by decide) (by decide)

/-- C9 counterexample: the claim (the configuration is read-only during
evaluation) fails: with defaults (no explicit `-c`) and model `ASA5505`,
the run overwrites `critical_high` in place from 100000 to the model
ceiling 10000. -/
theorem C9_critical_high_mutated :
    dictGet (check_asa_sessions (defaultValues "public" "192.0.2.1")
        ⟨some "a b c 107", some "a b c \x22ASA5505\x22"⟩).1 "critical_high"
      = some (.int 10000) ∧
    dictGet (defaultValues "public" "192.0.2.1") "critical_high" = some (.int 100000) := by
  decide

/-- C9 (amended): evaluation leaves every configuration entry other than
`critical_high` unchanged, and when `high_threshold_set` is `True` (an
operator-supplied `-c`) the whole configuration, `critical_high`
included, is left unchanged; only the runtime model-based resolution
overwrites `critical_high` in place. -/
theorem C9_config_frame (d : PyDict) (po : PollOutcome) :
    (∀ k, k ≠ "critical_high" → dictGet (check_asa_sessions d po).1 k = dictGet d k) ∧
    (dictGet d "high_threshold_set" = some (.bool true) → (check_asa_sessions d po).1 = d) :=
  ⟨fun k hk => check_frame d po k hk, fun h => check_preserves_of_explicit d po h⟩

/-- C9 witness: `warning_high` survives the run of the C9 counterexample
unchanged. -/
theorem C9_config_frame_witness :
    dictGet (check_asa_sessions (defaultValues "public" "192.0.2.1")
        ⟨some "a b c 107", some "a b c \x22ASA5505\x22"⟩).1 "warning_high"
      = dictGet (defaultValues "public" "192.0.2.1") "warning_high" :=
  (C9_config_frame (defaultValues "public" "192.0.2.1")
    ⟨some "a b c 107", some "a b c \x22ASA5505\x22"⟩).1 "warning_high" (by decide)

/-- C10: for every numeric session count and every integer threshold
configuration, whatever the ordering of the four thresholds, at least one
of the five bands matches: classification always produces a verdict and
never falls through. -/
theorem C10_classification_total (d : PyDict) (cur msg : String) (n cl wl wh ch : Int)
    (hn : pyInt cur = some n)
    (hcl : dictGet d "critical_low" = some (.int cl))
    (hwl : dictGet d "warning_low" = some (.int wl))
    (hwh : dictGet d "warning_high" = some (.int wh))
    (hch : dictGet d "critical_high" = some (.int ch)) :
    ∃ r : ExitResult, classify d cur msg = .ok (some r) := by
  rw [classify_firstMatch d cur msg n cl wl wh ch hn hcl hwl hwh hch]
  rcases le_or_lt n cl with h1 | h1
  · exact ⟨critical msg, by simp [specBands, firstMatch, h1]⟩
  · rcases le_or_lt n wl with h2 | h2
    · exact ⟨warning msg, by simp [specBands, firstMatch, show ¬(n ≤ cl) by omega, h1, h2]⟩
    · rcases lt_or_le n wh with h3 | h3
      · exact ⟨ok msg, by simp [specBands, firstMatch, show ¬(n ≤ cl) by omega,
          show ¬(n ≤ wl) by omega, h2, h3]⟩
      · rcases lt_or_le n ch with h4 | h4
        · exact ⟨warning msg, by simp [specBands, firstMatch, show ¬(n ≤ cl) by omega,
            show ¬(n ≤ wl) by omega, show ¬(n < wh) by omega, h3, h4]⟩
        · exact ⟨critical msg, by simp [specBands, firstMatch, show ¬(n ≤ cl) by omega,
            show ¬(n ≤ wl) by omega, show ¬(n < wh) by omega, show ¬(n < ch) by omega, h4]⟩

/-- C10 witness: the default configuration at session count 0. -/
theorem C10_classification_total_witness :
    ∃ r : ExitResult, classify (defaultValues "public" "192.0.2.1") "0" "m" = .ok (some r) :=
  C10_classification_total (defaultValues "public" "192.0.2.1") "0" "m"
    0 (-2) (-1) 50000 100000 (by decide) (by decide) (by decide) (by decide) (by decide)

end ASA
